import Mathlib

/-
  Shallow embedding of the pulp_rpm sources:
  - plugins/pulp_rpm/plugins/importers/iso/importer.py  (ISOImporter)
  - pulp_rpm/extensions/admin/rpm_admin_consumer/package.py  (CLI commands)
  Side effects of the importer callbacks are recorded as explicit traces;
  CLI rendering is modelled as a list of prompt outputs.
-/

namespace PulpRpm

/-- Python exceptions that the modelled code can raise. -/
inductive PyError where
  | valueError (msg : String)
  | attributeError
  deriving DecidableEq, Repr

/-- Unit key of an ISO content unit (name, checksum, size). -/
structure ISOKey where
  name : String
  checksum : String
  size : Nat
  deriving DecidableEq, Repr

/-- Side effects performed by ISOImporter.upload_unit, in order. -/
inductive UploadEffect where
  | save
  | importContent
  | associate
  deriving DecidableEq, Repr

/-- The dictionary returned by ISOImporter.upload_unit. -/
structure UploadReport where
  success_flag : Bool
  summary : Option String
  details : Option String
  deriving DecidableEq, Repr

/-- ISOImporter.upload_unit. The database of existing ISO unit keys stands for
models.ISO.objects; the guard is the filter-count check of the source. The
outcome of iso.validate_iso on the uploaded file is passed in as an
Except value (Except.error e models a raised ValueError with message e).
The second component is the trace of side effects performed. -/
def upload_unit (db : List ISOKey) (unit_key : ISOKey)
    (validate_iso : Except String Unit) : UploadReport × List UploadEffect :=
  if 0 < (db.filter (fun x => x == unit_key)).length then
    ({ success_flag := false, summary := some "ISO already exists", details := none }, [])
  else
    match validate_iso with
    | Except.error e =>
        ({ success_flag := false, summary := some e, details := none }, [])
    | Except.ok _ =>
        ({ success_flag := true, summary := none, details := none },
         [UploadEffect.save, UploadEffect.importContent, UploadEffect.associate])

/-- Report produced by ISOSyncRun.perform_sync (opaque to the importer). -/
structure SyncReport where
  success : Bool
  deriving DecidableEq, Repr

/-- Side effects performed by ISOImporter.sync_repo, in order. -/
inductive SyncEffect where
  | setConduitRepo
  | constructSyncRun
  | performSync
  | clearIsoSync
  deriving DecidableEq, Repr

/-- ISOImporter.sync_repo. The feed argument is config.get(KEY_FEED): none
when the feed key is absent, some s when it is present with value s (so an
empty feed address is some ""). The report argument is the value returned by
the sync run. The source assigns sync_conduit.repo first, then raises
ValueError when the feed is None, otherwise constructs ISOSyncRun, performs
the sync, clears self.iso_sync and returns the report. -/
def sync_repo (feed : Option String) (report : SyncReport) :
    Except PyError SyncReport × List SyncEffect :=
  match feed with
  | none =>
      (Except.error (PyError.valueError "Repository without feed cannot be synchronized"),
       [SyncEffect.setConduitRepo])
  | some _ =>
      (Except.ok report,
       [SyncEffect.setConduitRepo, SyncEffect.constructSyncRun,
        SyncEffect.performSync, SyncEffect.clearIsoSync])

/-- ISOImporter.cancel_sync_repo. The argument is the importer attribute
self.iso_sync: some run while a sync is active, none when idle (sync_repo
sets it to None after a completed sync). The body is
self.iso_sync.cancel_sync(): on None this raises AttributeError. -/
def cancel_sync_repo (iso_sync : Option Unit) : Except PyError Unit :=
  match iso_sync with
  | none => Except.error PyError.attributeError
  | some _ => Except.ok ()

/-- ISOImporter.import_units. The first argument is the result of
import_conduit.get_source_units with the ISO type criteria (every unit of the
governed type in the source repository, in query order); the second is the
optional pre-filtered list. The result pairs the trace of units passed to
import_conduit.associate_unit, in order, with the returned list. -/
def import_units (source_units : List ISOKey) (units : Option (List ISOKey)) :
    List ISOKey × List ISOKey :=
  match units with
  | none => (source_units, source_units)
  | some us => (us, us)

/- CLI layer: pulp_rpm/extensions/admin/rpm_admin_consumer/package.py -/

/-- Content type identifier TYPE_ID_RPM from pulp_rpm.common.ids. -/
def TYPE_ID_RPM : String := "rpm"

/-- Unit key of an RPM selector, holding only the package name. -/
structure RpmUnitKey where
  name : String
  deriving DecidableEq, Repr

/-- One entry of the units list of a consumer action request. A none
unit_key models the Python literal unit_key: None. -/
structure UnitSelector where
  type_id : String
  unit_key : Option RpmUnitKey
  deriving DecidableEq, Repr

/-- Parsed CLI keyword arguments for install and uninstall (name required)
and, with an optional name list, for update. The three booleans are the
values of the no-commit, reboot and import-keys flags. -/
structure InstallKwargs where
  name : List String
  no_commit : Bool
  reboot : Bool
  import_keys : Bool
  deriving DecidableEq, Repr

/-- Parsed CLI keyword arguments for update: name is optional. -/
structure UpdateKwargs where
  name : Option (List String)
  no_commit : Bool
  reboot : Bool
  import_keys : Bool
  deriving DecidableEq, Repr

/-- The options dictionary built by get_install_options / get_uninstall
options (uninstall omits importkeys; install carries all three). -/
structure InstallOptions where
  apply : Bool
  reboot : Bool
  importkeys : Bool
  deriving DecidableEq, Repr

/-- The options dictionary built by get_update_options. The all field is
none when the key is absent from the dictionary. -/
structure UpdateOptions where
  apply : Bool
  reboot : Bool
  importkeys : Bool
  all : Option Bool
  deriving DecidableEq, Repr

/-- The per-name selector dictionary built by the local _unit_dict helpers. -/
def unit_dict (unit_name : String) : UnitSelector :=
  { type_id := TYPE_ID_RPM, unit_key := some { name := unit_name } }

namespace YumConsumerPackageInstallCommand

/-- YumConsumerPackageInstallCommand.get_install_options. -/
def get_install_options (kwargs : InstallKwargs) : InstallOptions :=
  { apply := !kwargs.no_commit,
    reboot := kwargs.reboot,
    importkeys := kwargs.import_keys }

/-- YumConsumerPackageInstallCommand.get_content_units. -/
def get_content_units (kwargs : InstallKwargs) : List UnitSelector :=
  kwargs.name.map unit_dict

end YumConsumerPackageInstallCommand

namespace YumConsumerPackageUpdateCommand

/-- YumConsumerPackageUpdateCommand.get_update_options: the all key is set
to True exactly when no name argument was supplied. -/
def get_update_options (kwargs : UpdateKwargs) : UpdateOptions :=
  { apply := !kwargs.no_commit,
    reboot := kwargs.reboot,
    importkeys := kwargs.import_keys,
    all := match kwargs.name with
           | none => some true
           | some _ => none }

/-- YumConsumerPackageUpdateCommand.get_content_units. -/
def get_content_units (kwargs : UpdateKwargs) : List UnitSelector :=
  match kwargs.name with
  | some ns => ns.map unit_dict
  | none => [{ type_id := TYPE_ID_RPM, unit_key := none }]

end YumConsumerPackageUpdateCommand

namespace YumConsumerPackageUninstallCommand

/-- YumConsumerPackageUninstallCommand.get_uninstall_options (no importkeys
flag; the importkeys field is unused and kept False). -/
def get_uninstall_options (kwargs : InstallKwargs) : InstallOptions :=
  { apply := !kwargs.no_commit,
    reboot := kwargs.reboot,
    importkeys := false }

/-- YumConsumerPackageUninstallCommand.get_content_units. -/
def get_content_units (kwargs : InstallKwargs) : List UnitSelector :=
  kwargs.name.map unit_dict

end YumConsumerPackageUninstallCommand

/-- One rendered package document row (fields name, version, arch, repoid). -/
structure PkgDoc where
  name : String
  version : String
  arch : String
  repoid : String
  deriving DecidableEq, Repr

/-- One prompt output produced by the CLI rendering code. -/
inductive Out where
  | successMessage (msg : String)
  | failureMessage (msg : String)
  | title (msg : String)
  | documentList (docs : List PkgDoc)
  | write (line : String)
  | writeRed (line : String)
  deriving DecidableEq, Repr

/-- The per-type details dictionary of a task result,
task.result details[TYPE_ID_RPM] details. The errors field is none when the
errors key is absent and some assoc-list (in dict iteration order) when
present; message is the field read by the failed renderers. -/
structure RpmDetails where
  resolved : List PkgDoc
  deps : List PkgDoc
  errors : Option (List (String × String))
  message : String
  deriving DecidableEq, Repr

/-- Python truthiness of details.get with a default of None applied to the
errors mapping: None and the empty dict are falsy. -/
def truthyErrors : Option (List (String × String)) → Bool
  | none => false
  | some l => !l.isEmpty

namespace YumConsumerPackageInstallCommand

/-- YumConsumerPackageInstallCommand.failed. -/
def failed (d : RpmDetails) : List Out :=
  [Out.failureMessage "Install Failed", Out.failureMessage d.message]

/-- YumConsumerPackageInstallCommand.succeeded: the first argument is
task.result succeeded. Output order follows the source: success banner,
resolved table or already-installed note, deps table, then (only here) the
errors banner and one written line per name/message pair. -/
def succeeded (taskSucceeded : Bool) (d : RpmDetails) : List Out :=
  if !taskSucceeded then failed d
  else
    [Out.successMessage "Install Succeeded"]
    ++ (if !d.resolved.isEmpty then
          [Out.title "Installed", Out.documentList d.resolved]
        else
          [Out.successMessage "Packages already installed"])
    ++ (if !d.deps.isEmpty then
          [Out.title "Installed for Dependencies", Out.documentList d.deps]
        else [])
    ++ (if truthyErrors d.errors then
          Out.failureMessage "Failed to install following packages:"
          :: (d.errors.getD []).map (fun p => Out.write (p.1 ++ " : " ++ p.2 ++ "\n"))
        else [])

end YumConsumerPackageInstallCommand

namespace YumConsumerPackageUpdateCommand

/-- YumConsumerPackageUpdateCommand.failed. -/
def failed (d : RpmDetails) : List Out :=
  [Out.failureMessage "Update Failed", Out.failureMessage d.message]

/-- YumConsumerPackageUpdateCommand.succeeded: renders the success banner,
the resolved table or the no-updates note, and the deps table; the source
never reads the errors mapping here. -/
def succeeded (taskSucceeded : Bool) (d : RpmDetails) : List Out :=
  if !taskSucceeded then failed d
  else
    [Out.successMessage "Update Succeeded"]
    ++ (if !d.resolved.isEmpty then
          [Out.title "Updated", Out.documentList d.resolved]
        else
          [Out.successMessage "No updates needed"])
    ++ (if !d.deps.isEmpty then
          [Out.title "Installed for Dependencies", Out.documentList d.deps]
        else [])

end YumConsumerPackageUpdateCommand

namespace YumConsumerPackageUninstallCommand

/-- YumConsumerPackageUninstallCommand.failed. -/
def failed (d : RpmDetails) : List Out :=
  [Out.failureMessage "Uninstall Failed", Out.failureMessage d.message]

/-- YumConsumerPackageUninstallCommand.succeeded: renders the completion
banner, the resolved table or the nothing-matched note, and the deps table;
the source never reads the errors mapping here. -/
def succeeded (taskSucceeded : Bool) (d : RpmDetails) : List Out :=
  if !taskSucceeded then failed d
  else
    [Out.successMessage "Uninstall Completed"]
    ++ (if !d.resolved.isEmpty then
          [Out.title "Uninstalled", Out.documentList d.resolved]
        else
          [Out.successMessage "No matching packages found to uninstall"])
    ++ (if !d.deps.isEmpty then
          [Out.title "Uninstalled for Dependencies", Out.documentList d.deps]
        else [])

end YumConsumerPackageUninstallCommand

/- Progress tracker: YumConsumerPackageProgressTracker.display_details -/

/-- Python truthiness of an optional string: None and the empty string are
falsy. -/
def truthyStr : Option String → Bool
  | none => false
  | some s => !(s == "")

/-- A string of n spaces. -/
def blanks : Nat → String
  | 0 => ""
  | n + 1 => " " ++ blanks n

/-- Right-justify a string in a field of width w, as the %+12s conversion
does for strings. -/
def rjust (s : String) (w : Nat) : String :=
  blanks (w - s.length) ++ s

/-- Python str() of an optional string, as the %s conversion renders the
package value (None prints as the string None). -/
def pyStr : Option String → String
  | none => "None"
  | some s => s

/-- The detail line format of the tracker, the Python template
of a plus-twelve string conversion, a colon and a space, then the value. -/
def formatDetail (action rest : String) : String :=
  rjust action 12 ++ ": " ++ rest

/-- YumConsumerPackageProgressTracker.display_details. Arguments are the
action, package and error values of the event dictionary (none when the key
is absent). Returns the final self.details value (the method first resets it
to None) and the prompt outputs written. -/
def display_details (action package error : Option String) :
    Option String × List Out :=
  if truthyStr action then
    let d := formatDetail (action.getD "") (pyStr package)
    (some d, [Out.write d])
  else if truthyStr error then
    let d := formatDetail "Error" (error.getD "")
    (some d, [Out.writeRed d])
  else
    (none, [])

/- Theorems -/

/-- C1 counterexample: in the idle state (iso_sync is None, as after a
completed sync), cancel_sync_repo raises AttributeError, so it is not a
no-op that never raises. -/
theorem cancel_sync_repo_idle_raises_cex :
    cancel_sync_repo none = Except.error PyError.attributeError := rfl

/-- C1 amended: cancel_sync_repo forwards unconditionally to
iso_sync.cancel_sync; when no sync is active (iso_sync is None) it raises
AttributeError, and it succeeds exactly when a sync run is active. -/
theorem cancel_sync_repo_forwards :
    cancel_sync_repo none = Except.error PyError.attributeError ∧
    ∀ r : Unit, cancel_sync_repo (some r) = Except.ok () :=
  ⟨rfl, fun _ => rfl⟩

/-- C3 counterexample: a present-but-empty feed address is not rejected:
sync_repo returns the report normally and sync engine work is started, so
the claim fails for the empty feed address. -/
theorem sync_repo_empty_feed_cex :
    sync_repo (some "") { success := true } =
      (Except.ok { success := true },
       [SyncEffect.setConduitRepo, SyncEffect.constructSyncRun,
        SyncEffect.performSync, SyncEffect.clearIsoSync]) := rfl

/-- C3 amended: when the feed address is absent (None), sync_repo raises
ValueError synchronously instead of returning a report, and no sync engine
work is started (the trace holds only the conduit-repo assignment); an
empty-string feed is not rejected. -/
theorem sync_repo_absent_feed (r : SyncReport) :
    sync_repo none r =
      (Except.error (PyError.valueError "Repository without feed cannot be synchronized"),
       [SyncEffect.setConduitRepo]) ∧
    SyncEffect.constructSyncRun ∉ (sync_repo none r).2 ∧
    SyncEffect.performSync ∉ (sync_repo none r).2 := by
  refine ⟨rfl, ?_, ?_⟩ <;> simp [sync_repo]

/-- C4 counterexample: when the unit key already exists, the returned
summary is the string ISO already exists, not the string already exists. -/
theorem upload_unit_duplicate_summary_cex :
    (upload_unit [{ name := "a.iso", checksum := "abc", size := 1 }]
        { name := "a.iso", checksum := "abc", size := 1 } (Except.ok ())).1.summary =
      some "ISO already exists" ∧
    (upload_unit [{ name := "a.iso", checksum := "abc", size := 1 }]
        { name := "a.iso", checksum := "abc", size := 1 } (Except.ok ())).1.summary ≠
      some "already exists" := by
  refine ⟨rfl, ?_⟩
  decide

/-- C4 amended: for every upload whose unit_key matches an existing unit,
upload_unit returns success_flag False with summary ISO already exists and
performs no side effect (empty effect trace: nothing saved, imported or
associated). -/
theorem upload_unit_duplicate (db : List ISOKey) (k : ISOKey)
    (v : Except String Unit) (h : k ∈ db) :
    upload_unit db k v =
      ({ success_flag := false, summary := some "ISO already exists", details := none },
       []) := by
  have hf : 0 < (db.filter (fun x => x == k)).length := by
    apply List.length_pos.mpr
    intro hnil
    have : k ∈ db.filter (fun x => x == k) := List.mem_filter.mpr ⟨h, by simp⟩
    simp [hnil] at this
  unfold upload_unit
  rw [if_pos hf]

/-- C4 witness: amended theorem applied at a one-element database holding
the uploaded key. -/
theorem upload_unit_duplicate_witness :
    ({ name := "a.iso", checksum := "abc", size := 1 } : ISOKey) ∈
      [({ name := "a.iso", checksum := "abc", size := 1 } : ISOKey)] ∧
    upload_unit [{ name := "a.iso", checksum := "abc", size := 1 }]
        { name := "a.iso", checksum := "abc", size := 1 } (Except.ok ()) =
      ({ success_flag := false, summary := some "ISO already exists", details := none },
       []) :=
  ⟨by decide,
   upload_unit_duplicate [{ name := "a.iso", checksum := "abc", size := 1 }]
     { name := "a.iso", checksum := "abc", size := 1 } (Except.ok ()) (by decide)⟩

/-- C5: when validation of the uploaded file fails (validate_iso raises
ValueError with message msg), upload_unit returns success_flag False with
that message as the summary and performs no persistence (empty trace). -/
theorem upload_unit_validation_failure (db : List ISOKey) (k : ISOKey)
    (msg : String) (h : k ∉ db) :
    upload_unit db k (Except.error msg) =
      ({ success_flag := false, summary := some msg, details := none }, []) := by
  have hf : db.filter (fun x => x == k) = [] := by
    apply List.filter_eq_nil_iff.mpr
    intro a ha
    simp only [beq_iff_eq]
    intro heq
    exact h (heq ▸ ha)
  unfold upload_unit
  rw [hf]
  rfl

/-- C5 witness: validation failure against the empty database. -/
theorem upload_unit_validation_failure_witness :
    ({ name := "b.iso", checksum := "def", size := 2 } : ISOKey) ∉ ([] : List ISOKey) ∧
    upload_unit [] { name := "b.iso", checksum := "def", size := 2 }
        (Except.error "Downloading failed checksum validation.") =
      ({ success_flag := false,
         summary := some "Downloading failed checksum validation.",
         details := none }, []) :=
  ⟨by decide,
   upload_unit_validation_failure [] { name := "b.iso", checksum := "def", size := 2 }
     "Downloading failed checksum validation." (by decide)⟩

/-- C6: in every successful upload_unit call the side effects occur in the
order save, then import_content, then associate, so a unit is never
associated without first having been saved. -/
theorem upload_unit_effect_order (db : List ISOKey) (k : ISOKey) (h : k ∉ db) :
    upload_unit db k (Except.ok ()) =
      ({ success_flag := true, summary := none, details := none },
       [UploadEffect.save, UploadEffect.importContent, UploadEffect.associate]) := by
  have hf : db.filter (fun x => x == k) = [] := by
    apply List.filter_eq_nil_iff.mpr
    intro a ha
    simp only [beq_iff_eq]
    intro heq
    exact h (heq ▸ ha)
  unfold upload_unit
  rw [hf]
  rfl

/-- C6 witness: successful upload against the empty database. -/
theorem upload_unit_effect_order_witness :
    ({ name := "c.iso", checksum := "ghi", size := 3 } : ISOKey) ∉ ([] : List ISOKey) ∧
    upload_unit [] { name := "c.iso", checksum := "ghi", size := 3 } (Except.ok ()) =
      ({ success_flag := true, summary := none, details := none },
       [UploadEffect.save, UploadEffect.importContent, UploadEffect.associate]) :=
  ⟨by decide,
   upload_unit_effect_order [] { name := "c.iso", checksum := "ghi", size := 3 }
     (by decide)⟩

/-- C7: with no unit filter, every queried unit of the governed ISO type is
associated to the destination in query order and exactly those units are
returned; with a filter, exactly the filtered units are associated and
returned. -/
theorem import_units_associates_and_returns (source_units flt : List ISOKey) :
    import_units source_units none = (source_units, source_units) ∧
    import_units source_units (some flt) = (flt, flt) :=
  ⟨rfl, rfl⟩

/-- C2 counterexample: with a non-empty errors mapping in the task details,
the update and uninstall renderers produce no failure banner and no
per-package error line (their entire output is shown), so the claim fails
for those two commands. -/
theorem update_uninstall_ignore_errors_cex :
    truthyErrors (some [("pkg1", "msg1")]) = true ∧
    YumConsumerPackageUpdateCommand.succeeded true
        { resolved := [], deps := [], errors := some [("pkg1", "msg1")], message := "" } =
      [Out.successMessage "Update Succeeded", Out.successMessage "No updates needed"] ∧
    YumConsumerPackageUninstallCommand.succeeded true
        { resolved := [], deps := [], errors := some [("pkg1", "msg1")], message := "" } =
      [Out.successMessage "Uninstall Completed",
       Out.successMessage "No matching packages found to uninstall"] :=
  ⟨rfl, rfl, rfl⟩

/-- C2 amended: only the install command renders the errors mapping: with a
non-empty errors mapping its output is the errors-free output followed by
the failure banner and one written line per name/message pair, while the
update and uninstall renderers produce the same output as if the mapping
were absent. -/
theorem errors_rendering (d : RpmDetails) (h : truthyErrors d.errors = true) :
    YumConsumerPackageInstallCommand.succeeded true d =
      YumConsumerPackageInstallCommand.succeeded true { d with errors := none } ++
        Out.failureMessage "Failed to install following packages:"
        :: (d.errors.getD []).map (fun p => Out.write (p.1 ++ " : " ++ p.2 ++ "\n")) ∧
    YumConsumerPackageUpdateCommand.succeeded true d =
      YumConsumerPackageUpdateCommand.succeeded true { d with errors := none } ∧
    YumConsumerPackageUninstallCommand.succeeded true d =
      YumConsumerPackageUninstallCommand.succeeded true { d with errors := none } := by
  refine ⟨?_, rfl, rfl⟩
  have hnone : truthyErrors none = false := rfl
  simp [YumConsumerPackageInstallCommand.succeeded, h, hnone]

/-- C2 witness: amended theorem applied to a concrete task detail record
with one error entry. -/
theorem errors_rendering_witness :
    truthyErrors (some [("pkg1", "msg1")]) = true ∧
    (YumConsumerPackageInstallCommand.succeeded true
        { resolved := [], deps := [], errors := some [("pkg1", "msg1")], message := "" } =
      YumConsumerPackageInstallCommand.succeeded true
        { resolved := [], deps := [], errors := none, message := "" } ++
        Out.failureMessage "Failed to install following packages:"
        :: ((some [("pkg1", "msg1")] : Option (List (String × String))).getD []).map
             (fun p => Out.write (p.1 ++ " : " ++ p.2 ++ "\n")) ∧
     YumConsumerPackageUpdateCommand.succeeded true
        { resolved := [], deps := [], errors := some [("pkg1", "msg1")], message := "" } =
      YumConsumerPackageUpdateCommand.succeeded true
        { resolved := [], deps := [], errors := none, message := "" } ∧
     YumConsumerPackageUninstallCommand.succeeded true
        { resolved := [], deps := [], errors := some [("pkg1", "msg1")], message := "" } =
      YumConsumerPackageUninstallCommand.succeeded true
        { resolved := [], deps := [], errors := none, message := "" }) :=
  ⟨rfl,
   errors_rendering
     { resolved := [], deps := [], errors := some [("pkg1", "msg1")], message := "" } rfl⟩

/-- C8: when no name is supplied to the update command the built unit
selector list is exactly one RPM selector with a null unit key and the
options mapping carries all set to True; when names are supplied the all
key is absent and one selector per name is built. -/
theorem update_all_selector (kwargs : UpdateKwargs) :
    (kwargs.name = none →
      YumConsumerPackageUpdateCommand.get_content_units kwargs =
        [{ type_id := TYPE_ID_RPM, unit_key := none }] ∧
      (YumConsumerPackageUpdateCommand.get_update_options kwargs).all = some true) ∧
    (∀ ns, kwargs.name = some ns →
      (YumConsumerPackageUpdateCommand.get_update_options kwargs).all = none ∧
      YumConsumerPackageUpdateCommand.get_content_units kwargs = ns.map unit_dict) := by
  constructor
  · intro h
    constructor <;>
      simp [YumConsumerPackageUpdateCommand.get_content_units,
        YumConsumerPackageUpdateCommand.get_update_options, h]
  · intro ns h
    constructor <;>
      simp [YumConsumerPackageUpdateCommand.get_content_units,
        YumConsumerPackageUpdateCommand.get_update_options, h]

/-- C8 witness: the update request builders evaluated with no name argument
and with one name supplied. -/
theorem update_all_selector_witness :
    (YumConsumerPackageUpdateCommand.get_content_units
        { name := none, no_commit := false, reboot := false, import_keys := false } =
      [{ type_id := TYPE_ID_RPM, unit_key := none }] ∧
     (YumConsumerPackageUpdateCommand.get_update_options
        { name := none, no_commit := false, reboot := false, import_keys := false }).all =
      some true) ∧
    ((YumConsumerPackageUpdateCommand.get_update_options
        { name := some ["zsh"], no_commit := false, reboot := false,
          import_keys := false }).all = none ∧
     YumConsumerPackageUpdateCommand.get_content_units
        { name := some ["zsh"], no_commit := false, reboot := false,
          import_keys := false } = ["zsh"].map unit_dict) :=
  ⟨(update_all_selector
      { name := none, no_commit := false, reboot := false, import_keys := false }).1 rfl,
   (update_all_selector
      { name := some ["zsh"], no_commit := false, reboot := false,
        import_keys := false }).2 ["zsh"] rfl⟩

/-- C9: install with names foo and bar and the no-commit flag builds one
RPM selector per name in order and the options mapping apply False, reboot
False, importkeys False; in general apply is the negation of the no-commit
flag and reboot and import-keys pass through as given. -/
theorem install_request_build (nc rb ik : Bool) (names : List String) :
    YumConsumerPackageInstallCommand.get_content_units
        { name := ["foo", "bar"], no_commit := true, reboot := false,
          import_keys := false } =
      [{ type_id := TYPE_ID_RPM, unit_key := some { name := "foo" } },
       { type_id := TYPE_ID_RPM, unit_key := some { name := "bar" } }] ∧
    YumConsumerPackageInstallCommand.get_install_options
        { name := ["foo", "bar"], no_commit := true, reboot := false,
          import_keys := false } =
      { apply := false, reboot := false, importkeys := false } ∧
    YumConsumerPackageInstallCommand.get_install_options
        { name := names, no_commit := nc, reboot := rb, import_keys := ik } =
      { apply := !nc, reboot := rb, importkeys := ik } :=
  ⟨rfl, rfl, rfl⟩

/-- C10 counterexample: an event whose action key is present with an empty
value and whose error key is present writes the red error line, not the
action line, so key presence alone does not give the action precedence. -/
theorem display_details_empty_action_cex :
    (some "" : Option String).isSome = true ∧
    (some "boom" : Option String).isSome = true ∧
    display_details (some "") (some "pkg") (some "boom") =
      (some "       Error: boom", [Out.writeRed "       Error: boom"]) :=
  ⟨rfl, rfl, rfl⟩

/-- C10 amended: a truthy (non-empty) action value takes precedence: only
the action line is written, the error being ignored; when neither the
action nor the error value is truthy, nothing is written and the stored
details become None. -/
theorem display_details_precedence (a p e : Option String) :
    (truthyStr a = true →
      display_details a p e =
        (some (formatDetail (a.getD "") (pyStr p)),
         [Out.write (formatDetail (a.getD "") (pyStr p))])) ∧
    (truthyStr a = false → truthyStr e = false →
      display_details a p e = (none, [])) := by
  constructor
  · intro h
    simp [display_details, h]
  · intro h1 h2
    simp [display_details, h1, h2]

/-- C10 witness: precedence theorem applied to a truthy action event with
an error present, and to an empty event. -/
theorem display_details_precedence_witness :
    truthyStr (some "Installing") = true ∧
    display_details (some "Installing") (some "pkg") (some "boom") =
      (some (formatDetail "Installing" (pyStr (some "pkg"))),
       [Out.write (formatDetail "Installing" (pyStr (some "pkg")))]) ∧
    display_details none none none = (none, []) :=
  ⟨rfl,
   (display_details_precedence (some "Installing") (some "pkg") (some "boom")).1 rfl,
   (display_details_precedence none none none).2 rfl rfl⟩

end PulpRpm
